import Mathlib

/-!
# Verification of the Banquet search-and-discovery subsystem

A shallow embedding of the search subsystem of the Banquet venue-booking
backend: the cache key codec (`SearchCacheService.generateCacheKey`), the
Redis cache tier adapter (`RedisService`), the query engine
(`SearchRepository.searchBanquets` / `buildSortStage`), the analytics
aggregations (`SearchAnalyticsService.getPopularSearches`) and the
orchestrator (`SearchService.searchBanquets` / `getSearchSuggestions`).

Modelling conventions:
* JavaScript `undefined`/`null`/absent optional values are all modelled as
  `Option.none` (the cache key codec deletes `undefined` and `null` keys
  with the same test, and the rest of the code only ever distinguishes
  values by truthiness or by `!== undefined`).
* JavaScript numbers are modelled as `ℚ` (prices, ratings, coordinates,
  distances) or `ℕ` (counts, pages, timestamps); JS truthiness of a number
  is `≠ 0`, of a string is `≠ ""`.
* MongoDB queries are modelled as list transformations over an in-memory
  list of documents; the store's text-relevance match and the spherical
  geo-distance evaluation are external to the repository code and appear
  as oracle parameters.
* Asynchronous fire-and-forget writes (cache set, analytics record) are
  modelled by explicit failure flags in the environment; a rejected
  promise that the source catches locally has, by construction, no effect
  on the value the orchestrator returns.
-/

namespace Banquet

/-- JS truthiness of an optional number (`undefined`, `null` and `0` are falsy). -/
def truthyQ : Option ℚ → Bool
  | none => false
  | some x => x != 0

/-- JS truthiness of an optional natural number. -/
def truthyN : Option ℕ → Bool
  | none => false
  | some x => x != 0

/-- JS truthiness of an optional string (`undefined`, `null` and `""` are falsy). -/
def truthyS : Option String → Bool
  | none => false
  | some s => s != ""

/-- `x || d` on an optional number, as used for `searchDto.page || 1`. -/
def jsOrN (o : Option ℕ) (d : ℕ) : ℕ :=
  if truthyN o then o.getD d else d

/-- Sort modes of the search DTO.  The enum values are the ones referenced by
`SearchRepository.buildSortStage` (`PRICE_LOW`, `PRICE_HIGH`, `RATING`,
`DISTANCE`, `POPULARITY`). -/
inductive SearchSortBy
  | PRICE_LOW
  | PRICE_HIGH
  | RATING
  | DISTANCE
  | POPULARITY
deriving DecidableEq, Repr

/-- Modelled from the spec: the `SearchBanquetDto` class itself (the validated
input DTO, `src/modules/search/dto/search-banquet.dto.ts`) is not among the
provided sources; its fields are taken from spec §3 (SearchQuery) and from the
field accesses in `SearchRepository`, `SearchCacheService`,
`SearchAnalyticsService` and `SearchService`.  All fields are optional. -/
structure SearchBanquetDto where
  text : Option String := none
  city : Option String := none
  latitude : Option ℚ := none
  longitude : Option ℚ := none
  radiusKm : Option ℚ := none
  minCapacity : Option ℕ := none
  maxCapacity : Option ℕ := none
  minPrice : Option ℚ := none
  maxPrice : Option ℚ := none
  amenities : Option (List String) := none
  minRating : Option ℚ := none
  availableDate : Option String := none
  sortBy : Option SearchSortBy := none
  page : Option ℕ := none
  limit : Option ℕ := none
deriving DecidableEq, Repr

/-! ## Cache key codec (`SearchCacheService.generateCacheKey`) -/

/-- The code-unit key of a string, for the JS default sort comparator
(lexicographic comparison of the numeric code units). -/
def strKey (s : String) : List ℕ := s.data.map Char.toNat

/-- JavaScript `Array.prototype.sort()` with the default comparator on an
array of strings: a stable sort by lexicographic order on the code units
(modelled with a structurally recursive stable sort). -/
def jsSortStrings (l : List String) : List String :=
  l.insertionSort (fun a b => strKey a ≤ strKey b)

/-- A value of the normalized cache-key object: the object built by
`generateCacheKey` only ever holds strings, numbers and a string array. -/
inductive JVal
  | str (s : String)
  | num (q : ℚ)
  | strArr (xs : List String)
deriving DecidableEq, Repr

/-- Name of a sort mode, as serialized (the DTO enum is string-valued). -/
def SearchSortBy.name : SearchSortBy → String
  | .PRICE_LOW => "price_low"
  | .PRICE_HIGH => "price_high"
  | .RATING => "rating"
  | .DISTANCE => "distance"
  | .POPULARITY => "popularity"

/-- Deterministic rendering of a `JVal` (stand-in for the JSON value text). -/
def JVal.render : JVal → String
  | .str s => "\"" ++ s ++ "\""
  | .num q => toString q.num ++ "/" ++ toString q.den
  | .strArr xs => "[" ++ String.intercalate "," (xs.map (fun s => "\"" ++ s ++ "\"")) ++ "]"

/-- Deterministic rendering of the normalized object (stand-in for
`JSON.stringify`, which serializes the keys in insertion order). -/
def renderObj (entries : List (String × JVal)) : String :=
  "\x7b" ++ String.intercalate "," (entries.map (fun kv => "\"" ++ kv.1 ++ "\":" ++ kv.2.render)) ++ "\x7d"

/-- Stand-in for Node's `crypto.createHash('md5').update(s).digest('hex')`:
a concrete 128-bit fold of the input characters rendered in base 16.  The
cache-key claims depend only on the digest being a pure function of the
serialized string, not on the md5 algorithm itself. -/
def md5hex (s : String) : String :=
  let h := s.data.foldl (fun (acc : ℕ) c => (acc * 131 + c.toNat) % (2 ^ 128)) 0
  (Nat.toDigits 16 h).asString

/-- The entries of the normalized object built by `generateCacheKey`, in the
insertion order of the source object literal; absent (`undefined`/`null`)
fields are dropped, exactly as the `delete` loop of the source does. -/
def normalizedEntries (dto : SearchBanquetDto) : List (String × JVal) :=
  ([("text", dto.text.map .str),
    ("city", dto.city.map .str),
    ("latitude", dto.latitude.map .num),
    ("longitude", dto.longitude.map .num),
    ("radiusKm", dto.radiusKm.map .num),
    ("minCapacity", dto.minCapacity.map (fun n => .num n)),
    ("maxCapacity", dto.maxCapacity.map (fun n => .num n)),
    ("minPrice", dto.minPrice.map .num),
    ("maxPrice", dto.maxPrice.map .num),
    ("amenities", dto.amenities.map (fun l => .strArr (jsSortStrings l))),
    ("minRating", dto.minRating.map .num),
    ("availableDate", dto.availableDate.map .str),
    ("sortBy", dto.sortBy.map (fun s => .str s.name)),
    ("page", dto.page.map (fun n => .num n)),
    ("limit", dto.limit.map (fun n => .num n))]
  ).filterMap (fun kv => kv.2.map (fun j => (kv.1, j)))

/-- `SearchCacheService.CACHE_PREFIX`. -/
def CACHE_PREFIX : String := "search:banquets:"

/-- `SearchCacheService.generateCacheKey`.  Returns the key together with the
post-call DTO: the source evaluates `searchDto.amenities?.sort()`, and
`Array.prototype.sort` sorts the caller's array **in place**, so the call has
a side effect on its argument, which we model by explicit state passing. -/
def generateCacheKey (dto : SearchBanquetDto) : String × SearchBanquetDto :=
  (CACHE_PREFIX ++ md5hex (renderObj (normalizedEntries dto)),
   { dto with amenities := dto.amenities.map jsSortStrings })

/-- Semantic equality of the optional amenity arrays: both absent, or both
present and equal as multisets (same values regardless of order). -/
def amenitiesPerm : Option (List String) → Option (List String) → Prop
  | none, none => True
  | some a, some b => a.Perm b
  | _, _ => False

instance (a b : Option (List String)) : Decidable (amenitiesPerm a b) := by
  rcases a with _ | a <;> rcases b with _ | b <;> simp only [amenitiesPerm] <;> infer_instance

/-- Sorting two permutation-equal string lists with the JS default comparator
yields the same list. -/
theorem strKey_injective : Function.Injective strKey := by
  intro a b h
  unfold strKey at h
  have hd : a.data = b.data :=
    List.map_injective_iff.mpr (fun x y hxy => Char.ext (UInt32.toNat.inj hxy)) h
  cases a
  cases b
  simp_all

instance : IsTrans String (fun x y : String => strKey x ≤ strKey y) :=
  ⟨fun _ _ _ h1 h2 => le_trans h1 h2⟩

instance : IsTotal String (fun x y : String => strKey x ≤ strKey y) :=
  ⟨fun x y => le_total (strKey x) (strKey y)⟩

instance : IsAntisymm String (fun x y : String => strKey x ≤ strKey y) :=
  ⟨fun _ _ h1 h2 => strKey_injective (le_antisymm h1 h2)⟩

theorem jsSortStrings_perm_eq {a b : List String} (h : a.Perm b) :
    jsSortStrings a = jsSortStrings b := by
  apply List.eq_of_perm_of_sorted (r := fun x y : String => strKey x ≤ strKey y)
  · exact ((List.perm_insertionSort _ a).trans h).trans (List.perm_insertionSort _ b).symm
  · exact List.sorted_insertionSort _ a
  · exact List.sorted_insertionSort _ b

/-- `jsSortStrings l` is a permutation of `l`. -/
theorem jsSortStrings_perm (l : List String) : (jsSortStrings l).Perm l :=
  List.perm_insertionSort _ l

/-! ## Query engine (`SearchRepository`) -/

/-- Modelled from the spec: `BanquetStatus` lives in the banquet schema file,
which is not among the provided sources; the values referenced by the sources
under src/ are `DRAFT`, `PUBLISHED` and `UNAVAILABLE` ("a dedicated status
value distinguishes draft/unpublished/removed records"). -/
inductive BanquetStatus
  | DRAFT
  | PUBLISHED
  | UNAVAILABLE
deriving DecidableEq, Repr

/-- A stored banquet document, with the fields the search pipeline reads.
`perPlate` is the document path `pricing.perPlate`. -/
structure BanquetRec where
  id : ℕ
  name : String := ""
  description : Option String := none
  city : String := ""
  address : String := ""
  capacity : ℕ := 0
  perPlate : ℚ := 0
  amenities : List (String × Bool) := []
  images : Option (List String) := none
  rating : Option ℚ := none
  latitude : Option ℚ := none
  longitude : Option ℚ := none
  createdAt : ℕ := 0
  status : BanquetStatus := .PUBLISHED
  deletedAt : Option ℕ := none
deriving DecidableEq, Repr

/-- The oracles for the two store-evaluated functions the pipeline delegates
to MongoDB: the `$text` relevance match, and the geo distances (`$geoNear`'s
spherical distance in meters, and the `$addFields` haversine expression in
kilometers, whose trigonometry the store evaluates). -/
structure StoreOracle where
  textMatches : String → BanquetRec → Bool
  sphereMeters : ℚ × ℚ → ℚ × ℚ → ℚ
  haversineKm : ℚ × ℚ → ℚ × ℚ → ℚ

/-- An inclusive range constraint as built into the match stage: `some (g, l)`
stands for the operator object with optional `$gte : g` and `$lte : l`;
`some (none, none)` is the **literal empty document** (the source's
`matchStage.capacity = \x7b\x7d` with neither bound added), which MongoDB
treats as an equality match against the empty document. -/
abbrev RangeCons (α : Type) := Option (Option α × Option α)

/-- The `$match` stage object built by `SearchRepository.searchBanquets`. -/
structure MatchStage where
  text : Option String
  city : Option String
  capacity : RangeCons ℕ
  perPlate : RangeCons ℚ
  amenities : List String
deriving Repr

/-- The capacity branch of the match-stage builder:
`matchStage.capacity = \x7b\x7d` whenever either bound is supplied, then
`$gte`/`$lte` are added only for **truthy** bounds. -/
def buildCapacityCons (minCap maxCap : Option ℕ) : RangeCons ℕ :=
  if minCap.isSome || maxCap.isSome then
    some ((if truthyN minCap then minCap else none),
          (if truthyN maxCap then maxCap else none))
  else none

/-- The price branch of the match-stage builder: the key
`pricing.perPlate` is only created inside the truthiness-guarded branches
(`if (criteria.minPrice) ...`, `if (criteria.maxPrice) ...`). -/
def buildPerPlateCons (minPrice maxPrice : Option ℚ) : RangeCons ℚ :=
  if minPrice.isSome || maxPrice.isSome then
    let afterMin : RangeCons ℚ := if truthyQ minPrice then some (minPrice, none) else none
    if truthyQ maxPrice then
      match afterMin with
      | some p => some (p.1, maxPrice)
      | none => some (none, maxPrice)
    else afterMin
  else none

/-- The match stage built by `SearchRepository.searchBanquets` (text, city,
capacity, price and amenity branches; the status/deletedAt part is fixed and
is folded into `matchesStage`). -/
def buildMatchStage (c : SearchBanquetDto) : MatchStage :=
  { text := if truthyS c.text then c.text else none
    city := if truthyS c.city then c.city else none
    capacity := buildCapacityCons c.minCapacity c.maxCapacity
    perPlate := buildPerPlateCons c.minPrice c.maxPrice
    amenities :=
      match c.amenities with
      | some l => if l.length > 0 then l else []
      | none => [] }

/-- Evaluation of a range constraint against a numeric field value.  The
empty operator object matches nothing: MongoDB reads `field : \x7b\x7d` as an
equality match with the empty document, which no numeric value satisfies. -/
def consMatches {α : Type} [LinearOrder α] : RangeCons α → α → Bool
  | none, _ => true
  | some (none, none), _ => false
  | some (g, l), v => (g.all fun x => decide (x ≤ v)) && (l.all fun x => decide (v ≤ x))

/-- The `$regex`/`$options: 'i'` city filter, modelled as case-insensitive
substring containment (the filter string is used verbatim as the pattern). -/
def cityLike (pat c : String) : Bool :=
  decide (pat.toLower.data <:+: c.toLower.data)

/-- The amenity obligations: every requested amenity key must be `true` on
the record (`matchStage['amenities.' + a] = true` for each requested `a`). -/
def amenitiesMatch (req : List String) (rec : List (String × Bool)) : Bool :=
  req.all fun a => (rec.lookup a).getD false

/-- Whether a document satisfies the match stage (including the fixed
`status: PUBLISHED, deletedAt: null` part of the stage). -/
def matchesStage (txt : String → BanquetRec → Bool) (m : MatchStage) (r : BanquetRec) : Bool :=
  decide (r.status = BanquetStatus.PUBLISHED) && decide (r.deletedAt = none)
    && (match m.text with | none => true | some t => txt t r)
    && (match m.city with | none => true | some p => cityLike p r.city)
    && consMatches m.capacity r.capacity
    && consMatches m.perPlate r.perPlate
    && amenitiesMatch m.amenities r.amenities

/-- A document flowing through the aggregation pipeline: the stored record
plus the `distance` field added by `$geoNear` or the `$addFields` stage. -/
structure PipelineDoc where
  doc : BanquetRec
  distance : Option ℚ := none
deriving DecidableEq, Repr

/-- The sort keys that `buildSortStage` can emit. -/
inductive SortField
  | perPlate
  | rating
  | createdAt
  | distance
  | capacity
deriving DecidableEq, Repr

/-- A `$sort` stage: keys in significance order, each with an
ascending flag (`true` = `1`, `false` = `-1`). -/
abbrev SortSpec := List (SortField × Bool)

/-- `SearchRepository.buildSortStage`. -/
def buildSortStage (sortBy : Option SearchSortBy) (hasLocation : Bool) : SortSpec :=
  match sortBy with
  | some .PRICE_LOW => [(.perPlate, true)]
  | some .PRICE_HIGH => [(.perPlate, false)]
  | some .RATING => [(.rating, false), (.createdAt, false)]
  | some .DISTANCE => if hasLocation then [(.distance, true)] else [(.createdAt, false)]
  | some .POPULARITY => [(.rating, false), (.capacity, false)]
  | none => [(.createdAt, false)]

/-- The value a sort key reads off a pipeline document (`none` = the BSON
field is missing/null, as for an absent rating or distance). -/
def sortValue : SortField → PipelineDoc → Option ℚ
  | .perPlate, d => some d.doc.perPlate
  | .rating, d => d.doc.rating
  | .createdAt, d => some (d.doc.createdAt : ℚ)
  | .distance, d => d.distance
  | .capacity, d => some (d.doc.capacity : ℚ)

/-- MongoDB's ascending comparison on an optional numeric BSON value:
missing/null sorts before every number. -/
def mongoLE (a b : Option ℚ) : Bool :=
  match a, b with
  | none, _ => true
  | some _, none => false
  | some x, some y => decide (x ≤ y)

/-- The lexicographic document comparison induced by a `$sort` stage. -/
def specLE (spec : SortSpec) (d1 d2 : PipelineDoc) : Bool :=
  match spec with
  | [] => true
  | (f, asc) :: rest =>
    if sortValue f d1 = sortValue f d2 then specLE rest d1 d2
    else bif asc then mongoLE (sortValue f d1) (sortValue f d2)
    else mongoLE (sortValue f d2) (sortValue f d1)

/-- `SearchRepository.searchBanquets`: the aggregation pipeline, run against
an in-memory document list `db`.  Returns `(data, total)`:
* the `$geoNear` branch (latitude, longitude and radius all truthy) keeps the
  documents with an indexed location that satisfy the match stage and lie
  within `radiusKm * 1000` meters, attaches the spherical distance (meters)
  and emits them nearest-first;
* otherwise the `$match` stage filters the documents;
* the `$addFields` haversine stage attaches a kilometer distance when
  latitude and longitude are truthy but the radius is not;
* the `$sort` stage from `buildSortStage` (its `hasLocation` argument is
  `criteria.latitude !== undefined`);
* `total` is the result of the count pipeline (the same stages plus
  `$count`, before `$skip`/`$limit`);
* `$skip ((page-1)*limit)` and `$limit limit`, with the destructuring
  defaults `page = 1`, `limit = 10`. -/
def searchBanquetsRepo (o : StoreOracle) (db : List BanquetRec) (dto : SearchBanquetDto) :
    List PipelineDoc × ℕ :=
  let page := dto.page.getD 1
  let lim := dto.limit.getD 10
  let skip := (page - 1) * lim
  let m := buildMatchStage dto
  let geo := truthyQ dto.latitude && truthyQ dto.longitude && truthyQ dto.radiusKm
  let docs : List PipelineDoc :=
    if geo then
      (db.filterMap (fun r =>
        match r.latitude, r.longitude with
        | some lat, some lon =>
          let dist := o.sphereMeters (dto.longitude.getD 0, dto.latitude.getD 0) (lon, lat)
          if matchesStage o.textMatches m r && decide (dist ≤ (dto.radiusKm.getD 0) * 1000) then
            some { doc := r, distance := some dist }
          else none
        | _, _ => none)).insertionSort (fun a b => mongoLE a.distance b.distance = true)
    else
      (db.filter (matchesStage o.textMatches m)).map (fun r => { doc := r })
  let docs :=
    if truthyQ dto.latitude && truthyQ dto.longitude && !truthyQ dto.radiusKm then
      docs.map (fun d =>
        { d with distance :=
            match d.doc.latitude, d.doc.longitude with
            | some lat, some lon =>
              some (o.haversineKm (dto.latitude.getD 0, dto.longitude.getD 0) (lat, lon))
            | _, _ => none })
    else docs
  let sortStage := buildSortStage dto.sortBy dto.latitude.isSome
  let sorted := docs.insertionSort (fun a b => specLE sortStage a b = true)
  ((sorted.drop skip).take lim, sorted.length)

/-! ## Orchestrator result shape (`SearchService`) -/

/-- `Math.round(x)`: JS rounds half towards positive infinity. -/
def jsRound (q : ℚ) : ℤ := ⌊q + 1 / 2⌋

/-- `Math.round(x * 100) / 100`: rounding to two decimal places. -/
def jsRound2 (q : ℚ) : ℚ := (jsRound (q * 100) : ℚ) / 100

/-- One transformed search result item (`BanquetSearchResultDto`). -/
structure BanquetSearchResult where
  id : ℕ
  name : String
  description : Option String
  city : String
  address : String
  capacity : ℕ
  perPlate : ℚ
  amenities : List (String × Bool)
  images : List String
  rating : Option ℚ
  distance : Option ℚ
  createdAt : ℕ
deriving DecidableEq, Repr

/-- The per-document transform of `SearchService.searchBanquets`:
`distance: doc.distance ? Math.round(doc.distance * 100) / 100 : undefined`
(a falsy — in particular zero — distance becomes `undefined`), and
`images: doc.images || []`. -/
def transformDoc (d : PipelineDoc) : BanquetSearchResult :=
  { id := d.doc.id
    name := d.doc.name
    description := d.doc.description
    city := d.doc.city
    address := d.doc.address
    capacity := d.doc.capacity
    perPlate := d.doc.perPlate
    amenities := d.doc.amenities
    images := d.doc.images.getD []
    rating := d.doc.rating
    distance := if truthyQ d.distance then some (jsRound2 (d.distance.getD 0)) else none
    createdAt := d.doc.createdAt }

/-- `Math.ceil(a / b)` on natural numbers (`b > 0`). -/
def jsCeilDiv (a b : ℕ) : ℕ := (a + b - 1) / b

/-- Pagination metadata (`PaginationMetaDto`). -/
structure PaginationMeta where
  total : ℕ
  page : ℕ
  limit : ℕ
  totalPages : ℕ
  hasNext : Bool
  hasPrev : Bool
deriving DecidableEq, Repr

/-- The applied-filters summary built by `SearchService.getAppliedFilters`
(each field is included only when the corresponding DTO field is truthy;
`location` requires both coordinates, `radiusKm` additionally the radius). -/
structure AppliedFilters where
  text : Option String := none
  city : Option String := none
  minCapacity : Option ℕ := none
  maxCapacity : Option ℕ := none
  minPrice : Option ℚ := none
  maxPrice : Option ℚ := none
  amenities : Option (List String) := none
  minRating : Option ℚ := none
  sortBy : Option SearchSortBy := none
  location : Option (ℚ × ℚ) := none
  radiusKm : Option ℚ := none
deriving DecidableEq, Repr

/-- `SearchService.getAppliedFilters`. -/
def getAppliedFilters (dto : SearchBanquetDto) : AppliedFilters :=
  { text := if truthyS dto.text then dto.text else none
    city := if truthyS dto.city then dto.city else none
    minCapacity := if truthyN dto.minCapacity then dto.minCapacity else none
    maxCapacity := if truthyN dto.maxCapacity then dto.maxCapacity else none
    minPrice := if truthyQ dto.minPrice then dto.minPrice else none
    maxPrice := if truthyQ dto.maxPrice then dto.maxPrice else none
    amenities := dto.amenities
    minRating := if truthyQ dto.minRating then dto.minRating else none
    sortBy := dto.sortBy
    location :=
      if truthyQ dto.latitude && truthyQ dto.longitude then
        some (dto.latitude.getD 0, dto.longitude.getD 0)
      else none
    radiusKm :=
      if truthyQ dto.latitude && truthyQ dto.longitude && truthyQ dto.radiusKm then
        dto.radiusKm
      else none }

/-- Search response metadata (`SearchMetadataDto`). -/
structure SearchMetadata where
  queryTimeMs : ℕ
  cached : Bool
  appliedFilters : AppliedFilters
deriving DecidableEq, Repr

/-- The complete search response (`SearchResultDto`). -/
structure SearchResultDto where
  data : List BanquetSearchResult
  pagination : PaginationMeta
  metadata : SearchMetadata
deriving DecidableEq, Repr

/-! ## Cache tier adapter (`RedisService`) -/

/-- The state of the Redis adapter: the connectivity flag toggled by the
transport's connect/error/close callbacks, whether the client was ever
created (`this.client === null` when initialization failed), the key-value
store, and per-operation transport/serialization failure flags (a flag set
means the next such operation's awaited I/O rejects or its JSON step throws,
which the source catches and logs). -/
structure RedisState (V : Type) where
  isConnected : Bool
  clientNull : Bool := false
  store : List (String × V) := []
  getFails : Bool := false
  setFails : Bool := false
  delFails : Bool := false

/-- `RedisService.isAvailable`. -/
def RedisService.isAvailable {V : Type} (s : RedisState V) : Bool :=
  s.isConnected && !s.clientNull

/-- `RedisService.get`: short-circuits to `null` when not connected, converts
any transport/parse failure to `null`. -/
def RedisService.get {V : Type} (s : RedisState V) (key : String) : Option V :=
  if !s.isConnected || s.clientNull then none
  else if s.getFails then none
  else s.store.lookup key

/-- `RedisService.set`: `false` when not connected or on failure, `true`
after a successful write. -/
def RedisService.set {V : Type} (s : RedisState V) (key : String) (v : V) (_ttlSeconds : ℕ) :
    RedisState V × Bool :=
  if !s.isConnected || s.clientNull then (s, false)
  else if s.setFails then (s, false)
  else ({ s with store := (key, v) :: s.store.filter (fun kv => kv.1 ≠ key) }, true)

/-- `RedisService.delPattern`: `0` when not connected or on failure,
otherwise deletes the keys matching the pattern and returns how many
(the only pattern used is the namespace followed by `*`, modelled as a
string-prefix match). -/
def RedisService.delPattern {V : Type} (s : RedisState V) (pat : String) : RedisState V × ℕ :=
  if !s.isConnected || s.clientNull then (s, 0)
  else if s.delFails then (s, 0)
  else
    let keys := s.store.filter (fun kv => pat.isPrefixOf kv.1)
    if keys.length > 0 then
      ({ s with store := s.store.filter (fun kv => !pat.isPrefixOf kv.1) }, keys.length)
    else (s, 0)

/-! ## Search cache service (`SearchCacheService`) -/

/-- `SearchCacheService.CACHE_TTL` (seconds). -/
def CACHE_TTL : ℕ := 300

/-- `SearchCacheService.getCachedResults`: `null` when the adapter reports
unavailable; on a hit, marks `metadata.cached = true`; the surrounding
`try/catch` converts any error to `null` (the adapter's own catch already
yields `null` on a failed GET, represented by the `getFails` flag). -/
def getCachedResults (s : RedisState SearchResultDto) (key : String) : Option SearchResultDto :=
  if !RedisService.isAvailable s then none
  else
    match RedisService.get s key with
    | some cached => some { cached with metadata := { cached.metadata with cached := true } }
    | none => none

/-- `SearchCacheService.setCachedResults`: a no-op when the adapter reports
unavailable; failures of the underlying SET are swallowed. -/
def setCachedResults (s : RedisState SearchResultDto) (key : String) (results : SearchResultDto)
    (ttl : ℕ := CACHE_TTL) : RedisState SearchResultDto :=
  if !RedisService.isAvailable s then s
  else (RedisService.set s key results ttl).1

/-! ## Analytics recorder (`SearchAnalyticsService`) -/

/-- One stored analytics document (the fields the read aggregations use). -/
structure AnalyticsRecord where
  query : Option String := none
  resultCount : ℚ := 0
  city : Option String := none
  createdAt : ℕ := 0
  queryTimeMs : ℚ := 0
  cached : Bool := false
deriving DecidableEq, Repr

/-- One row of the `getPopularSearches` projection. -/
structure PopularSearch where
  query : String
  searchCount : ℕ
  avgResults : ℚ
deriving DecidableEq, Repr

/-- Seven days in milliseconds. -/
def sevenDaysMs : ℕ := 7 * 24 * 60 * 60 * 1000

/-- MongoDB `$round` with `place = 0`: rounds half to even. -/
def mongoRound0 (q : ℚ) : ℚ :=
  let f : ℤ := ⌊q⌋
  if q - f < 1 / 2 then f
  else if q - f > 1 / 2 then f + 1
  else if f % 2 = 0 then f else f + 1

/-- Average of a list of rationals (`$avg`; `0` on the empty list). -/
def listAvg (l : List ℚ) : ℚ := l.sum / l.length

/-- The `$match` stage of `getPopularSearches`: non-null query text recorded
within the last 7 days. -/
def popularFilter (now : ℕ) (r : AnalyticsRecord) : Bool :=
  r.query.isSome && decide (now - sevenDaysMs ≤ r.createdAt)

/-- `SearchAnalyticsService.getPopularSearches`: match non-null queries of
the last 7 days, `$group` by query text (count and `$avg resultCount`),
`$sort` by count descending, `$limit`, `$project` with `$round avgResults 0`.
MongoDB leaves the relative order of groups with equal counts unspecified;
the model fixes the group enumeration order (first appearance) and a stable
sort, one of the permitted behaviours. -/
def getPopularSearches (now : ℕ) (recs : List AnalyticsRecord) (lim : ℕ) :
    List PopularSearch :=
  let filtered := recs.filter (popularFilter now)
  let keys := (filtered.filterMap (fun r => r.query)).dedup
  let groups := keys.map (fun q =>
    let grp := filtered.filter (fun r => r.query == some q)
    { query := q
      searchCount := grp.length
      avgResults := mongoRound0 (listAvg (grp.map (fun r => r.resultCount))) : PopularSearch })
  (groups.insertionSort (fun a b => b.searchCount ≤ a.searchCount)).take lim

/-! ## Search orchestrator (`SearchService`) -/

/-- The environment of one `SearchService.searchBanquets` call: the Redis
adapter state, the banquet store, the store oracles, whether the repository
query rejects (and with what message), whether the deferred analytics write
rejects, and the elapsed time the two `Date.now()` reads observe. -/
structure SearchEnv where
  redis : RedisState SearchResultDto
  db : List BanquetRec
  oracle : StoreOracle
  repoFails : Option String := none
  analyticsFails : Bool := false
  elapsedMs : ℕ := 0

/-- The cache-miss path of `SearchService.searchBanquets`: run the
repository query, transform the documents, and assemble the pagination
(`page || 1`, `limit || 10`, `totalPages = ceil(total/limit)`,
`hasNext = page < totalPages`, `hasPrev = page > 1`) and the metadata
(`cached: false`, the applied-filters summary). -/
def buildMissResult (env : SearchEnv) (dto' : SearchBanquetDto) : SearchResultDto :=
  let res := searchBanquetsRepo env.oracle env.db dto'
  let banquets := res.1.map transformDoc
  let total := res.2
  let lim := jsOrN dto'.limit 10
  let pg := jsOrN dto'.page 1
  { data := banquets
    pagination :=
      { total := total
        page := pg
        limit := lim
        totalPages := jsCeilDiv total lim
        hasNext := decide (pg < jsCeilDiv total lim)
        hasPrev := decide (pg > 1) }
    metadata :=
      { queryTimeMs := env.elapsedMs
        cached := false
        appliedFilters := getAppliedFilters dto' } }

/-- `SearchService.searchBanquets`.  The cache key is generated first (with
its in-place amenity sort, so the repository and the applied-filters summary
see the mutated DTO); a cache hit returns immediately; on a miss the
repository runs (its rejection is the only one not caught) and the result is
assembled by `buildMissResult`.  The cache write and the analytics record are
dispatched fire-and-forget with their failures caught and logged (`.catch`,
`setImmediate` + `.catch`), so neither the `setFails` nor the
`analyticsFails` flag can influence the returned value or turn it into an
error — they do not appear in this function. -/
def SearchService.searchBanquets (env : SearchEnv) (dto : SearchBanquetDto)
    (_userId _ipAddress : Option String := none) : Except String SearchResultDto :=
  match getCachedResults env.redis (generateCacheKey dto).1 with
  | some cached => .ok cached
  | none =>
    match env.repoFails with
    | some e => .error e
    | none => .ok (buildMissResult env (generateCacheKey dto).2)

/-- Case-insensitive containment, JS
`a.toLowerCase().includes(b.toLowerCase())`. -/
def containsCI (hay needle : String) : Bool :=
  decide (needle.toLower.data <:+: hay.toLower.data)

/-- `SearchService.getSearchSuggestions`: short-circuit to `[]` for a falsy
or shorter-than-2 query, else filter the 50 most popular searches for
case-insensitive containment, take `limit`, and project the query text. -/
def getSearchSuggestions (now : ℕ) (recs : List AnalyticsRecord)
    (query : Option String) (lim : ℕ := 10) : List String :=
  if !truthyS query || decide ((query.getD "").length < 2) then []
  else
    let popular := getPopularSearches now recs 50
    ((popular.filter (fun it => containsCI it.query (query.getD ""))).take lim).map
      (fun it => it.query)

/-! ## C1 / C8: the cache key codec -/

/-- C1: Cache key determinism — for every pair of semantically equal search
queries (the same filter values field by field, with absent/`null`/`undefined`
optional fields all modelled as `none`, and the amenities arrays equal up to
order), `generateCacheKey` returns the same key string.  Field *write* order
has no counterpart in the model: a structure value carries no field order, so
semantic equality is exactly the fieldwise hypotheses below. -/
theorem cacheKey_deterministic (q1 q2 : SearchBanquetDto)
    (htext : q1.text = q2.text) (hcity : q1.city = q2.city)
    (hlat : q1.latitude = q2.latitude) (hlon : q1.longitude = q2.longitude)
    (hrad : q1.radiusKm = q2.radiusKm)
    (hminc : q1.minCapacity = q2.minCapacity) (hmaxc : q1.maxCapacity = q2.maxCapacity)
    (hminp : q1.minPrice = q2.minPrice) (hmaxp : q1.maxPrice = q2.maxPrice)
    (ham : amenitiesPerm q1.amenities q2.amenities)
    (hminr : q1.minRating = q2.minRating) (hdate : q1.availableDate = q2.availableDate)
    (hsort : q1.sortBy = q2.sortBy) (hpage : q1.page = q2.page) (hlim : q1.limit = q2.limit) :
    (generateCacheKey q1).1 = (generateCacheKey q2).1 := by
  have hamen : q1.amenities.map (fun l => JVal.strArr (jsSortStrings l)) =
      q2.amenities.map (fun l => JVal.strArr (jsSortStrings l)) := by
    rcases h1 : q1.amenities with _ | a <;> rcases h2 : q2.amenities with _ | b <;>
      rw [h1, h2] at ham <;> simp only [amenitiesPerm] at ham
    show some (JVal.strArr (jsSortStrings a)) = some (JVal.strArr (jsSortStrings b))
    rw [jsSortStrings_perm_eq ham]
  unfold generateCacheKey normalizedEntries
  rw [htext, hcity, hlat, hlon, hrad, hminc, hmaxc, hminp, hmaxp, hamen, hminr, hdate,
    hsort, hpage, hlim]

/-- Witness for C1 at a concrete pair of queries differing only in the order
of the amenities array. -/
theorem cacheKey_deterministic_witness :
    (generateCacheKey
        { city := some "Mumbai", amenities := some ["wifi", "parking"], page := some 1 }).1 =
      (generateCacheKey
        { city := some "Mumbai", amenities := some ["parking", "wifi"], page := some 1 }).1 :=
  cacheKey_deterministic _ _ rfl rfl rfl rfl rfl rfl rfl rfl rfl (by decide) rfl rfl rfl rfl rfl

/-- C8 counterexample: `generateCacheKey` does **not** leave the query value
unchanged — for the concrete query whose amenities array is
`["wifi", "parking"]`, the in-place `Array.prototype.sort` reorders that
array, so the post-call query differs from the input. -/
theorem generateCacheKey_mutates_input :
    (generateCacheKey { amenities := some ["wifi", "parking"] }).2 ≠
      ({ amenities := some ["wifi", "parking"] } : SearchBanquetDto) := by
  decide

/-- C8 (amended): `generateCacheKey` leaves every field of the query
unchanged except `amenities`, which it replaces in place by its sorted
permutation (same elements, sorted order). -/
theorem generateCacheKey_sorts_amenities_in_place (q : SearchBanquetDto) :
    (generateCacheKey q).2 = { q with amenities := q.amenities.map jsSortStrings } ∧
      amenitiesPerm (generateCacheKey q).2.amenities q.amenities := by
  refine ⟨rfl, ?_⟩
  show amenitiesPerm (q.amenities.map jsSortStrings) q.amenities
  rcases q.amenities with _ | l
  · trivial
  · exact jsSortStrings_perm l

/-! ## C7: the sort-mode table -/

theorem mongoLE_total (a b : Option ℚ) : mongoLE a b = true ∨ mongoLE b a = true := by
  rcases a with _ | x <;> rcases b with _ | y <;> simp [mongoLE]
  exact le_total x y

theorem mongoLE_trans {a b c : Option ℚ} (h1 : mongoLE a b = true) (h2 : mongoLE b c = true) :
    mongoLE a c = true := by
  rcases a with _ | x <;> rcases b with _ | y <;> rcases c with _ | z <;>
    simp_all [mongoLE]
  exact le_trans h1 h2

theorem mongoLE_antisymm {a b : Option ℚ} (h1 : mongoLE a b = true) (h2 : mongoLE b a = true) :
    a = b := by
  rcases a with _ | x <;> rcases b with _ | y <;> simp_all [mongoLE]
  exact le_antisymm h1 h2

theorem specLE_total (spec : SortSpec) (a b : PipelineDoc) :
    specLE spec a b = true ∨ specLE spec b a = true := by
  induction spec with
  | nil => left; rfl
  | cons hd tl ih =>
    obtain ⟨f, asc⟩ := hd
    by_cases h : sortValue f a = sortValue f b
    · rw [specLE, if_pos h, specLE, if_pos h.symm]
      exact ih
    · have h' : ¬ sortValue f b = sortValue f a := fun e => h e.symm
      rw [specLE, if_neg h, specLE, if_neg h']
      cases asc
      · simpa only [Bool.cond_false] using mongoLE_total (sortValue f b) (sortValue f a)
      · simpa only [Bool.cond_true] using mongoLE_total (sortValue f a) (sortValue f b)

theorem specLE_trans (spec : SortSpec) : ∀ {a b c : PipelineDoc},
    specLE spec a b = true → specLE spec b c = true → specLE spec a c = true := by
  induction spec with
  | nil =>
    intro a b c _ _
    rfl
  | cons hd tl ih =>
    obtain ⟨f, asc⟩ := hd
    intro a b c hab hbc
    rw [specLE] at hab hbc ⊢
    by_cases h1 : sortValue f a = sortValue f b <;>
      by_cases h2 : sortValue f b = sortValue f c
    · rw [if_pos h1] at hab
      rw [if_pos h2] at hbc
      rw [if_pos (h1.trans h2)]
      exact ih hab hbc
    · rw [if_pos h1] at hab
      rw [if_neg h2] at hbc
      rw [if_neg (fun e => h2 (h1.symm.trans e)), h1]
      exact hbc
    · rw [if_neg h1] at hab
      rw [if_pos h2] at hbc
      rw [if_neg (fun e => h1 (e.trans h2.symm)), ← h2]
      exact hab
    · rw [if_neg h1] at hab
      rw [if_neg h2] at hbc
      by_cases h3 : sortValue f a = sortValue f c
      · exfalso
        cases asc
        · rw [Bool.cond_false] at hab hbc
          rw [← h3] at hbc
          exact h1 (mongoLE_antisymm hbc hab)
        · rw [Bool.cond_true] at hab hbc
          rw [← h3] at hbc
          exact h1 (mongoLE_antisymm hab hbc)
      · rw [if_neg h3]
        cases asc
        · rw [Bool.cond_false] at hab hbc ⊢
          exact mongoLE_trans hbc hab
        · rw [Bool.cond_true] at hab hbc ⊢
          exact mongoLE_trans hab hbc

instance (spec : SortSpec) : IsTrans PipelineDoc (fun a b => specLE spec a b = true) :=
  ⟨fun _ _ _ => specLE_trans spec⟩

instance (spec : SortSpec) : IsTotal PipelineDoc (fun a b => specLE spec a b = true) :=
  ⟨specLE_total spec⟩

/-- The sort-mode table as the spec words it: price ascending/descending by
per-unit price; rating by highest rating, newest first as tie-break; distance
nearest first when the query's *coordinates* are supplied, newest first
otherwise; popularity by highest rating then highest capacity; default newest
first.  The `coords` flag is the table's "coordinates supplied" condition. -/
def specSortTable (sortBy : Option SearchSortBy) (coords : Bool) : SortSpec :=
  match sortBy with
  | some .PRICE_LOW => [(.perPlate, true)]
  | some .PRICE_HIGH => [(.perPlate, false)]
  | some .RATING => [(.rating, false), (.createdAt, false)]
  | some .DISTANCE => bif coords then [(.distance, true)] else [(.createdAt, false)]
  | some .POPULARITY => [(.rating, false), (.capacity, false)]
  | none => [(.createdAt, false)]

/-- The sort stage the engine emits for a query, with the `hasLocation`
argument the source passes (`criteria.latitude !== undefined`). -/
def emittedSortStage (dto : SearchBanquetDto) : SortSpec :=
  buildSortStage dto.sortBy dto.latitude.isSome

/-- C7 counterexample: for the concrete query `DISTANCE` sort with a latitude
but **no longitude** — so the spec table's "coordinates supplied" condition is
false and the table prescribes newest-first — the engine still emits the
nearest-first sort stage, because `buildSortStage` receives
`criteria.latitude !== undefined` and never consults the longitude. -/
theorem sort_table_counterexample :
    emittedSortStage { sortBy := some SearchSortBy.DISTANCE, latitude := some 19 } ≠
      specSortTable (some SearchSortBy.DISTANCE)
        (({ sortBy := some SearchSortBy.DISTANCE, latitude := some 19 } :
            SearchBanquetDto).latitude.isSome &&
         ({ sortBy := some SearchSortBy.DISTANCE, latitude := some 19 } :
            SearchBanquetDto).longitude.isSome) := by
  decide

/-- The first component of `searchBanquetsRepo` is pairwise ordered by the
comparator of the emitted sort stage (the `$skip`/`$limit` page of the
`$sort`-ed pipeline). -/
theorem searchBanquetsRepo_fst_pairwise (o : StoreOracle) (db : List BanquetRec)
    (dto : SearchBanquetDto) :
    List.Pairwise (fun d1 d2 => specLE (emittedSortStage dto) d1 d2 = true)
      (searchBanquetsRepo o db dto).1 := by
  unfold searchBanquetsRepo emittedSortStage
  apply List.Pairwise.sublist ((List.take_sublist _ _).trans (List.drop_sublist _ _))
  exact List.sorted_insertionSort _ _

/-- C7 (amended): for every sort mode the engine orders results per the spec
table, except that the distance mode's fallback condition is the presence of
the **latitude alone** (not of both coordinates): the emitted sort stage
equals the table entry with `coords := latitude.isSome`, and every result
page of the query engine is ordered by that table entry's comparator. -/
theorem sort_table_amended (o : StoreOracle) (db : List BanquetRec)
    (dto : SearchBanquetDto) :
    emittedSortStage dto = specSortTable dto.sortBy dto.latitude.isSome ∧
      List.Pairwise
        (fun d1 d2 => specLE (specSortTable dto.sortBy dto.latitude.isSome) d1 d2 = true)
        (searchBanquetsRepo o db dto).1 := by
  have heq : emittedSortStage dto = specSortTable dto.sortBy dto.latitude.isSome := by
    unfold emittedSortStage buildSortStage specSortTable
    rcases dto.sortBy with _ | m
    · rfl
    · cases m <;> rcases dto.latitude with _ | x <;> rfl
  exact ⟨heq, heq ▸ searchBanquetsRepo_fst_pairwise o db dto⟩

/-! ## C2: failure isolation of the orchestrator -/

/-- C2: `SearchService.searchBanquets` raises to its caller exactly when the
query engine raises — an error is returned iff the cache-get path produced no
cached result **and** the repository call rejects, with exactly the
repository's error — whenever the repository does not reject the orchestrator
returns a `SearchResult`, and a failure of the fire-and-forget cache write or
analytics record (the `setFails`/`delFails`/`analyticsFails` flags) is
absorbed: it cannot change the returned value at all. -/
theorem searchBanquets_failure_isolation (env : SearchEnv) (dto : SearchBanquetDto)
    (u ip : Option String) :
    (∀ e, SearchService.searchBanquets env dto u ip = .error e ↔
        getCachedResults env.redis (generateCacheKey dto).1 = none ∧
          env.repoFails = some e) ∧
      (env.repoFails = none → ∃ r, SearchService.searchBanquets env dto u ip = .ok r) ∧
      (∀ b1 b2 b3 : Bool,
        SearchService.searchBanquets
          { env with
            redis := { env.redis with setFails := b1, delFails := b2 }
            analyticsFails := b3 } dto u ip =
          SearchService.searchBanquets env dto u ip) := by
  refine and_assoc.mp ⟨?_, fun _ _ _ => rfl⟩
  rcases hc : getCachedResults env.redis (generateCacheKey dto).1 with _ | cached <;>
    rcases hr : env.repoFails with _ | e'
  · exact ⟨fun e => by simp [SearchService.searchBanquets, hc, hr],
      fun _ => ⟨buildMissResult env (generateCacheKey dto).2,
        by simp [SearchService.searchBanquets, hc, hr]⟩⟩
  · exact ⟨fun e => by simp [SearchService.searchBanquets, hc, hr],
      fun h => absurd h (Option.some_ne_none e')⟩
  · exact ⟨fun e => by simp [SearchService.searchBanquets, hc, hr],
      fun _ => ⟨cached, by simp [SearchService.searchBanquets, hc]⟩⟩
  · exact ⟨fun e => by simp [SearchService.searchBanquets, hc, hr],
      fun _ => ⟨cached, by simp [SearchService.searchBanquets, hc]⟩⟩

/-- A trivial store oracle for concrete witnesses: every text matches, both
distance functions are identically zero. -/
def oracleTrivial : StoreOracle :=
  { textMatches := fun _ _ => true
    sphereMeters := fun _ _ => 0
    haversineKm := fun _ _ => 0 }

/-- A concrete environment with a disconnected cache and an empty store. -/
def envNoCache : SearchEnv :=
  { redis := { isConnected := false }
    db := []
    oracle := oracleTrivial }

/-- Witness for C2 at a concrete environment with no repository failure. -/
theorem searchBanquets_failure_isolation_witness :
    ∃ r, SearchService.searchBanquets envNoCache {} none none = .ok r :=
  (searchBanquets_failure_isolation envNoCache {} none none).2.1 rfl

/-! ## C4: graceful degradation of the cache tier -/

/-- C4: whenever the connectivity flag is false — or the operation's own
transport/serialization step fails — `get` returns `none`, `set` reports
`false`, and the pattern invalidation removes zero entries, none of them
raising (they are total functions); consequently a search call with the
cache disconnected never fails due to cache operations: it reaches the
query engine and, whenever the engine itself does not reject, returns a
fresh (non-cached) `SearchResult`. -/
theorem cache_graceful_degradation {V : Type} (s : RedisState V) (key pat : String)
    (v : V) (ttl : ℕ) (env : SearchEnv) (dto : SearchBanquetDto) (u ip : Option String)
    (hs : s.isConnected = false ∨ (s.getFails = true ∧ s.setFails = true ∧ s.delFails = true))
    (hconn : env.redis.isConnected = false) :
    RedisService.get s key = none ∧
      (RedisService.set s key v ttl).2 = false ∧
      (RedisService.delPattern s pat).2 = 0 ∧
      (env.repoFails = none →
        SearchService.searchBanquets env dto u ip =
          .ok (buildMissResult env (generateCacheKey dto).2) ∧
        (buildMissResult env (generateCacheKey dto).2).metadata.cached = false) := by
  have hmiss : getCachedResults env.redis (generateCacheKey dto).1 = none := by
    simp [getCachedResults, RedisService.isAvailable, hconn]
  refine ⟨?_, ?_, ?_, fun hrepo => ⟨?_, rfl⟩⟩
  · rcases hs with h | ⟨h, -, -⟩ <;> simp [RedisService.get, h]
  · rcases hs with h | ⟨-, h, -⟩ <;> simp [RedisService.set, h]
  · rcases hs with h | ⟨-, -, h⟩ <;> simp [RedisService.delPattern, h]
  · simp [SearchService.searchBanquets, hmiss, hrepo]

/-- Witness for C4 at a concrete disconnected cache state and environment. -/
theorem cache_graceful_degradation_witness :
    RedisService.get (RedisState.mk false false ([] : List (String × ℕ)) false false false)
        "search:banquets:k" = none ∧
      (RedisService.set (RedisState.mk false false ([] : List (String × ℕ)) false false false)
          "search:banquets:k" 7 300).2 = false ∧
      (RedisService.delPattern (RedisState.mk false false ([] : List (String × ℕ)) false false false)
          "search:banquets:").2 = 0 ∧
      (envNoCache.repoFails = none →
        SearchService.searchBanquets envNoCache {} none none =
          .ok (buildMissResult envNoCache (generateCacheKey {}).2) ∧
        (buildMissResult envNoCache (generateCacheKey {}).2).metadata.cached = false) :=
  cache_graceful_degradation
    (RedisState.mk false false ([] : List (String × ℕ)) false false false)
    "search:banquets:k" "search:banquets:" 7 300 envNoCache {} none none
    (Or.inl rfl) rfl

/-! ## C3: pagination invariants -/

/-- `page < Math.ceil(total / limit)` is exactly `page * limit < total`. -/
theorem lt_jsCeilDiv_iff {p t s : ℕ} (hs : 1 ≤ s) : p < jsCeilDiv t s ↔ p * s < t := by
  unfold jsCeilDiv
  rw [Nat.lt_iff_add_one_le, Nat.le_div_iff_mul_le hs]
  have h1 : (p + 1) * s = p * s + s := by ring
  omega

/-- The data page of the repository holds at most `limit` documents. -/
theorem searchBanquetsRepo_fst_length (o : StoreOracle) (db : List BanquetRec)
    (dto : SearchBanquetDto) :
    (searchBanquetsRepo o db dto).1.length ≤ dto.limit.getD 10 := by
  unfold searchBanquetsRepo
  exact List.length_take_le _ _

/-- C3: on a cache miss, for a valid page `p ≥ 1` and page size `s ∈ 1..100`,
the returned result holds at most `s` items, `hasNext` is `p * s < total`,
`hasPrev` is `p > 1`, and `total` is the repository's count of the documents
matching the filter (the count pipeline's value). -/
theorem pagination_invariants (env : SearchEnv) (dto : SearchBanquetDto)
    (u ip : Option String) (p s : ℕ)
    (hp : 1 ≤ p) (hs1 : 1 ≤ s) (hs2 : s ≤ 100)
    (hpage : dto.page = some p) (hlim : dto.limit = some s)
    (hmiss : getCachedResults env.redis (generateCacheKey dto).1 = none)
    (hrepo : env.repoFails = none) :
    ∃ r, SearchService.searchBanquets env dto u ip = .ok r ∧
      r.data.length ≤ s ∧
      (r.pagination.hasNext = true ↔
        p * s < (searchBanquetsRepo env.oracle env.db (generateCacheKey dto).2).2) ∧
      (r.pagination.hasPrev = true ↔ 1 < p) ∧
      r.pagination.total = (searchBanquetsRepo env.oracle env.db (generateCacheKey dto).2).2 := by
  have hpage' : (generateCacheKey dto).2.page = some p := hpage
  have hlim' : (generateCacheKey dto).2.limit = some s := hlim
  have hs0 : s ≠ 0 := by omega
  have hp0 : p ≠ 0 := by omega
  have hjsl : jsOrN (generateCacheKey dto).2.limit 10 = s := by
    rw [hlim']
    simp [jsOrN, truthyN, hs0]
  have hjsp : jsOrN (generateCacheKey dto).2.page 1 = p := by
    rw [hpage']
    simp [jsOrN, truthyN, hp0]
  refine ⟨buildMissResult env (generateCacheKey dto).2,
    by simp [SearchService.searchBanquets, hmiss, hrepo], ?_, ?_, ?_, ?_⟩
  · show ((searchBanquetsRepo env.oracle env.db (generateCacheKey dto).2).1.map
      transformDoc).length ≤ s
    rw [List.length_map]
    have := searchBanquetsRepo_fst_length env.oracle env.db (generateCacheKey dto).2
    rw [hlim'] at this
    exact this
  · show decide (jsOrN (generateCacheKey dto).2.page 1 <
        jsCeilDiv (searchBanquetsRepo env.oracle env.db (generateCacheKey dto).2).2
          (jsOrN (generateCacheKey dto).2.limit 10)) = true ↔ _
    rw [hjsp, hjsl]
    simp only [decide_eq_true_eq]
    exact lt_jsCeilDiv_iff hs1
  · show decide (jsOrN (generateCacheKey dto).2.page 1 > 1) = true ↔ 1 < p
    rw [hjsp]
    simp
  · rfl

/-- Witness for C3 at a concrete query (`page = 1`, `limit = 10`) against a
disconnected cache and the empty store. -/
theorem pagination_invariants_witness :
    ∃ r, SearchService.searchBanquets envNoCache
        { page := some 1, limit := some 10 } none none = .ok r ∧
      r.data.length ≤ 10 ∧
      (r.pagination.hasNext = true ↔
        1 * 10 < (searchBanquetsRepo envNoCache.oracle envNoCache.db
          (generateCacheKey { page := some 1, limit := some 10 }).2).2) ∧
      (r.pagination.hasPrev = true ↔ 1 < 1) ∧
      r.pagination.total = (searchBanquetsRepo envNoCache.oracle envNoCache.db
        (generateCacheKey { page := some 1, limit := some 10 }).2).2 :=
  pagination_invariants envNoCache { page := some 1, limit := some 10 } none none 1 10
    (by decide) (by decide) (by decide) rfl rfl rfl rfl

/-! ## C5: inclusive range filtering and zero-valued bounds -/

/-- A published record with per-plate price 100 and capacity 50. -/
def recPrice100 : BanquetRec :=
  { id := 1, name := "Grand Hall", city := "Mumbai", capacity := 50,
    perPlate := 100, createdAt := 5 }

/-- C5 (code bug evaluation): the range filters drop zero-valued bounds.
With `maxPrice = 0` supplied, the truthiness guard `if (criteria.maxPrice)`
skips the `$lte` operator, so the price filter vanishes and a record priced
100 is returned — the claim requires it to be excluded (100 > 0).  With
`minCapacity = 0` supplied, the builder creates `capacity: \x7b\x7d` (the
guard `if (criteria.minCapacity)` then skips `$gte`), an equality match with
the empty document that **no** numeric capacity satisfies, so a record with
capacity 50 is excluded — the claim requires it to be returned (50 ≥ 0). -/
theorem zero_bound_range_filters :
    (searchBanquetsRepo oracleTrivial [recPrice100] { maxPrice := some 0 }).2 = 1 ∧
      ((searchBanquetsRepo oracleTrivial [recPrice100] { maxPrice := some 0 }).1.map
        (fun d => d.doc.id)) = [1] ∧
      (searchBanquetsRepo oracleTrivial [recPrice100] { minCapacity := some 0 }).2 = 0 := by
  decide

/-! ## C6: distance computation and exposure -/

/-- A published record located exactly at (19.0760, 72.8777). -/
def recAtPoint : BanquetRec :=
  { id := 2, name := "Seaside", city := "Mumbai", capacity := 10, perPlate := 50,
    latitude := some (190760 / 10000 : ℚ), longitude := some (728777 / 10000 : ℚ),
    createdAt := 3 }

/-- The geo query at the record's own coordinates, radius 5 km. -/
def dtoGeo : SearchBanquetDto :=
  { latitude := some (190760 / 10000 : ℚ), longitude := some (728777 / 10000 : ℚ),
    radiusKm := some 5 }

/-- The environment for the geo query: disconnected cache, one record. -/
def envGeo : SearchEnv :=
  { redis := { isConnected := false }
    db := [recAtPoint]
    oracle := oracleTrivial }

/-- C6 (code bug evaluation): a record at exactly the query coordinates is
kept by the radius filter with pipeline distance `0`, but the orchestrator's
transform `doc.distance ? Math.round(doc.distance * 100) / 100 : undefined`
treats the falsy distance `0` as "no distance", so the returned item carries
**no** distance instead of the claimed `0.00`.  (`oracleTrivial` evaluates the
store's spherical distance as the constant `0`, the correct value for two
identical points.) -/
theorem zero_distance_dropped :
    ((searchBanquetsRepo oracleTrivial [recAtPoint] (generateCacheKey dtoGeo).2).1.map
        (fun d => d.distance)) = [some 0] ∧
      ((SearchService.searchBanquets envGeo dtoGeo none none).toOption.map
        (fun r => r.data.map (fun b => (b.id, b.distance)))) = some [(2, none)] := by
  have hdto : (generateCacheKey dtoGeo).2 = dtoGeo := rfl
  have hrepo : searchBanquetsRepo oracleTrivial [recAtPoint] dtoGeo =
      ([{ doc := recAtPoint, distance := some 0 }], 1) := by
    unfold searchBanquetsRepo
    norm_num [dtoGeo, recAtPoint, oracleTrivial, truthyQ, buildMatchStage, matchesStage,
      buildCapacityCons, buildPerPlateCons, amenitiesMatch, cityLike, consMatches,
      buildSortStage, List.insertionSort, List.orderedInsert, specLE, mongoLE]
  have hmiss : getCachedResults envGeo.redis (generateCacheKey dtoGeo).1 = none := by
    simp [getCachedResults, RedisService.isAvailable, envGeo]
  constructor
  · rw [hdto, hrepo]
    rfl
  · simp only [SearchService.searchBanquets, hmiss]
    show some ((buildMissResult envGeo (generateCacheKey dtoGeo).2).data.map
      (fun b => (b.id, b.distance))) = some [(2, none)]
    rw [show (buildMissResult envGeo (generateCacheKey dtoGeo).2).data =
        (searchBanquetsRepo oracleTrivial [recAtPoint] dtoGeo).1.map transformDoc from rfl,
      hrepo]
    simp [transformDoc, truthyQ, recAtPoint]

/-! ## C9: popular-queries aggregation -/

instance : IsTrans PopularSearch (fun a b => b.searchCount ≤ a.searchCount) :=
  ⟨fun _ _ _ h1 h2 => le_trans h2 h1⟩

instance : IsTotal PopularSearch (fun a b => b.searchCount ≤ a.searchCount) :=
  ⟨fun a b => le_total b.searchCount a.searchCount⟩

/-- The group row `getPopularSearches` builds for a query text `q` over the
match-stage output `filtered`. -/
def popularGroup (filtered : List AnalyticsRecord) (q : String) : PopularSearch :=
  { query := q
    searchCount := (filtered.filter (fun r => r.query == some q)).length
    avgResults := mongoRound0 (listAvg ((filtered.filter (fun r => r.query == some q)).map
      (fun r => r.resultCount))) }

/-- `getPopularSearches`, written through `popularGroup` (definitional). -/
theorem getPopularSearches_eq (now : ℕ) (recs : List AnalyticsRecord) (lim : ℕ) :
    getPopularSearches now recs lim =
      ((((recs.filter (popularFilter now)).filterMap (fun r => r.query)).dedup.map
          (popularGroup (recs.filter (popularFilter now)))).insertionSort
        (fun a b => b.searchCount ≤ a.searchCount)).take lim := rfl

/-- C9 (amended): `getPopularSearches` returns at most `limit` rows; the rows
are ordered by occurrence count descending; every returned row's text is the
text of some non-null record of the last 7 days, its `searchCount` is the
exact number of such records with that text, and its `avgResults` is the
average result count of those records **rounded to the nearest integer**
(`$round` at 0 places, half to even) — not the exact average; and the rows
are the top-`limit` groups: any in-window text left out has a count no larger
than that of every returned row. -/
theorem popular_searches_amended (now : ℕ) (recs : List AnalyticsRecord) (lim : ℕ) :
    (getPopularSearches now recs lim).length ≤ lim ∧
      List.Pairwise (fun a b => b.searchCount ≤ a.searchCount)
        (getPopularSearches now recs lim) ∧
      (∀ it ∈ getPopularSearches now recs lim,
        (∃ r ∈ recs, r.query = some it.query ∧ popularFilter now r = true) ∧
        it.searchCount = ((recs.filter (popularFilter now)).filter
          (fun r => r.query == some it.query)).length ∧
        it.avgResults = mongoRound0 (listAvg (((recs.filter (popularFilter now)).filter
          (fun r => r.query == some it.query)).map (fun r => r.resultCount)))) ∧
      (∀ q ∈ (recs.filter (popularFilter now)).filterMap (fun r => r.query),
        q ∉ (getPopularSearches now recs lim).map (fun it => it.query) →
        ∀ it ∈ getPopularSearches now recs lim,
          ((recs.filter (popularFilter now)).filter
            (fun r => r.query == some q)).length ≤ it.searchCount) := by
  rw [getPopularSearches_eq]
  set filtered := recs.filter (popularFilter now) with hfil
  set keys := (filtered.filterMap (fun r => r.query)).dedup with hkeys
  set sorted := (keys.map (popularGroup filtered)).insertionSort
    (fun a b => b.searchCount ≤ a.searchCount) with hsorted
  have hperm : sorted.Perm (keys.map (popularGroup filtered)) :=
    List.perm_insertionSort _ _
  have hpair : List.Pairwise (fun a b => b.searchCount ≤ a.searchCount) sorted :=
    List.sorted_insertionSort _ _
  have hmem_group : ∀ it ∈ sorted.take lim, ∃ q ∈ keys, popularGroup filtered q = it := by
    intro it hit
    exact List.mem_map.mp (hperm.mem_iff.mp ((List.take_sublist _ _).mem hit))
  refine ⟨List.length_take_le _ _, List.Pairwise.sublist (List.take_sublist _ _) hpair,
    ?_, ?_⟩
  · intro it hit
    obtain ⟨q, hq, rfl⟩ := hmem_group it hit
    refine ⟨?_, rfl, rfl⟩
    have hq' : q ∈ filtered.filterMap (fun r => r.query) := List.mem_dedup.mp hq
    obtain ⟨r, hr, hrq⟩ := List.mem_filterMap.mp hq'
    obtain ⟨hrrecs, hrfilt⟩ := List.mem_filter.mp hr
    exact ⟨r, hrrecs, hrq, hrfilt⟩
  · intro q hq hnot it hit
    have hqkeys : q ∈ keys := List.mem_dedup.mpr hq
    have hgmem : popularGroup filtered q ∈ sorted :=
      hperm.mem_iff.mpr (List.mem_map_of_mem _ hqkeys)
    have hgnot : popularGroup filtered q ∉ sorted.take lim := by
      intro hmem
      exact hnot (List.mem_map.mpr ⟨popularGroup filtered q, hmem, rfl⟩)
    have hgdrop : popularGroup filtered q ∈ sorted.drop lim := by
      rcases (List.mem_append.mp ((List.take_append_drop lim sorted) ▸ hgmem)) with h | h
      · exact absurd h hgnot
      · exact h
    have hsplit := (List.pairwise_append.mp
      ((List.take_append_drop lim sorted).symm ▸ hpair)).2.2
    exact hsplit it hit _ hgdrop

/-- Three in-window analytics records for the text "hall" with result counts
0, 0 and 1. -/
def recsAvg : List AnalyticsRecord :=
  [{ query := some "hall", resultCount := 0 },
   { query := some "hall", resultCount := 0 },
   { query := some "hall", resultCount := 1 }]

/-- `mongoRound0` at the exact average `1/3` yields `0`. -/
theorem mongoRound0_third : mongoRound0 (1 / 3 : ℚ) = 0 := by
  unfold mongoRound0
  norm_num

/-- Concrete evaluation of `getPopularSearches` on `recsAvg`. -/
theorem getPopularSearches_recsAvg_eval :
    getPopularSearches 0 recsAvg 10 =
      [{ query := "hall", searchCount := 3, avgResults := 0 }] := by
  rw [getPopularSearches_eq]
  have hkeys : ((recsAvg.filter (popularFilter 0)).filterMap (fun r => r.query)).dedup =
      ["hall"] := by decide
  rw [hkeys]
  have hgrp : popularGroup (recsAvg.filter (popularFilter 0)) "hall" =
      { query := "hall", searchCount := 3, avgResults := 0 } := by
    unfold popularGroup
    have hfil : (recsAvg.filter (popularFilter 0)).filter
        (fun r => r.query == some "hall") = recsAvg := by decide
    rw [hfil]
    have hmap : recsAvg.map (fun r => r.resultCount) = [0, 0, 1] := by decide
    rw [hmap]
    have havg : listAvg ([0, 0, 1] : List ℚ) = 1 / 3 := by
      norm_num [listAvg]
    rw [havg, mongoRound0_third]
    rfl
  rw [show (["hall"].map (popularGroup (recsAvg.filter (popularFilter 0)))) =
    [popularGroup (recsAvg.filter (popularFilter 0)) "hall"] from rfl, hgrp]
  rfl

/-- C9 counterexample: on `recsAvg` the single returned row reports
`avgResults = 0`, while the exact average result count of the group's
occurrences is `1/3` — the aggregation projects `$round: [$avg, 0]`, not the
average itself. -/
theorem popular_avg_rounding_counterexample :
    ((getPopularSearches 0 recsAvg 10).map
        (fun it => (it.query, it.searchCount, it.avgResults))) = [("hall", 3, 0)] ∧
      listAvg (((recsAvg.filter (popularFilter 0)).filter
        (fun r => r.query == some "hall")).map (fun r => r.resultCount)) = 1 / 3 ∧
      (0 : ℚ) ≠ 1 / 3 := by
  refine ⟨by rw [getPopularSearches_recsAvg_eval]; rfl, ?_, by norm_num⟩
  have hfil : ((recsAvg.filter (popularFilter 0)).filter
      (fun r => r.query == some "hall")).map (fun r => r.resultCount) = [0, 0, 1] := by decide
  rw [hfil]
  norm_num [listAvg]

/-- Witness for C9's amended theorem at the concrete history `recsAvg`,
discharging the row-membership hypothesis at the concrete returned row. -/
theorem popular_searches_amended_witness :
    (getPopularSearches 0 recsAvg 10).length ≤ 10 ∧
      ({ query := "hall", searchCount := 3, avgResults := 0 } : PopularSearch).searchCount =
        ((recsAvg.filter (popularFilter 0)).filter
          (fun r => r.query == some "hall")).length := by
  refine ⟨(popular_searches_amended 0 recsAvg 10).1, ?_⟩
  exact ((popular_searches_amended 0 recsAvg 10).2.2.1 _
    (by rw [getPopularSearches_recsAvg_eval]; exact List.mem_singleton.mpr rfl)).2.1

/-! ## C10: suggestions short-input guard -/

/-- C10: for a falsy (absent or empty) or shorter-than-2 partial text,
`getSearchSuggestions` returns `[]` — for **every** analytics history, so the
answer is independent of analytics; otherwise it returns at most `limit`
strings, each of which is the text of one of the 50 most popular searches
and contains the partial text case-insensitively. -/
theorem suggestions_guard_and_bounds (now : ℕ) (recs : List AnalyticsRecord)
    (query : Option String) (lim : ℕ) :
    ((truthyS query = false ∨ (query.getD "").length < 2) →
      getSearchSuggestions now recs query lim = []) ∧
      (getSearchSuggestions now recs query lim).length ≤ lim ∧
      (∀ s ∈ getSearchSuggestions now recs query lim,
        ∃ it ∈ getPopularSearches now recs 50,
          it.query = s ∧ containsCI s (query.getD "") = true) := by
  by_cases hc : (!truthyS query || decide ((query.getD "").length < 2)) = true
  · have hnil : getSearchSuggestions now recs query lim = [] := by
      unfold getSearchSuggestions
      rw [if_pos hc]
    rw [hnil]
    exact ⟨fun _ => rfl, by simp, by simp⟩
  · have hbody : getSearchSuggestions now recs query lim =
        (((getPopularSearches now recs 50).filter
          (fun it => containsCI it.query (query.getD ""))).take lim).map
          (fun it => it.query) := by
      unfold getSearchSuggestions
      rw [if_neg hc]
    refine ⟨fun h => absurd ?_ hc, ?_, ?_⟩
    · rcases h with h | h
      · simp [h]
      · simp [h]
    · rw [hbody, List.length_map]
      exact List.length_take_le _ _
    · intro s hs
      rw [hbody] at hs
      obtain ⟨it, hit, rfl⟩ := List.mem_map.mp hs
      have hit' : it ∈ (getPopularSearches now recs 50).filter
          (fun it => containsCI it.query (query.getD "")) :=
        (List.take_sublist _ _).mem hit
      obtain ⟨hpop, hci⟩ := List.mem_filter.mp hit'
      exact ⟨it, hpop, rfl, hci⟩

/-- Witness for C10: the one-character partial text `"a"` yields no
suggestions. -/
theorem suggestions_guard_witness :
    getSearchSuggestions 0 [] (some "a") 10 = [] :=
  (suggestions_guard_and_bounds 0 [] (some "a") 10).1 (Or.inr (by decide))
